import Mathlib

/-!
Verification development for the RodinViewerTest declaration surface
(`src/api.d.ts`).  The repository ships only TypeScript declarations: class
and interface signatures with doc comments, no implementation bodies.  The
structures below embed the declared data model directly from `src/api.d.ts`;
the operations carry doc comments starting `Modelled from the spec:` because
their bodies are not under `src/` and are reconstructed from the
declarations' doc comments and `spec.md`.  Numeric values are modelled as
rationals.
-/

/-- Vector of three numbers, the engine's `Vec3` as used by
`src/api.d.ts` (`albedoScale`, `lightDirection`, `setLightDirection`). -/
structure Vec3 where
  x : ℚ
  y : ℚ
  z : ℚ
deriving DecidableEq

/-- The engine's `Color` as used by `src/api.d.ts` (`blankColor`,
`wireColor`, `backColor`); RGBA channels range over 0 - 255. -/
structure Color where
  r : ℚ
  g : ℚ
  b : ℚ
  a : ℚ
deriving DecidableEq

/-- `RodinMaterialProperties` interface, src/api.d.ts lines 7-11. -/
structure RodinMaterialProperties where
  roughness : ℚ
  metallic : ℚ
  albedoScale : Vec3
deriving DecidableEq

/-- `RodinMaterial` interface, src/api.d.ts lines 18-27. Texture slots are
`string | Texture2D` in the source; they are modelled as optional texture
references by name. -/
structure RodinMaterial where
  name : String
  mainTexture : Option String
  albedoMap : Option String
  pbrMap : Option String
  normalMap : Option String
  baseColorMap : Option String
  properties : Option RodinMaterialProperties
deriving DecidableEq

/-- `RodinAsset` interface, src/api.d.ts lines 35-40. -/
structure RodinAsset where
  name : String
  host : String
  url : String
  materials : List RodinMaterial
deriving DecidableEq

/-- State of the `RemoteLoader` component, src/api.d.ts lines 46-123.
The declared fields `materials`, `blankColor`, `wireColor`,
`wireDepthBias`, `host` and `loading` are embedded directly.  `pending`
is the callback registered by an accepted load request (the declarations
promise the callback is invoked when the asynchronous download finishes);
`current` is the material name last passed to `switchMaterial`, and
`toonLineWidth` is the toon material's line width set by `setLineWidth`. -/
structure RemoteLoaderState where
  materials : List String
  blankColor : Color
  wireColor : Color
  wireDepthBias : ℚ
  host : String
  loading : Bool
  pending : Option Nat
  current : String
  toonLineWidth : ℚ
  wireFrameEnabled : Bool
deriving DecidableEq

/-- Modelled from the spec: the implementation of `RemoteLoader.loadGLTF`
is not under src/ (src/api.d.ts:89 declares only the signature).  Per the
declaration's doc comment the returned boolean states "Whether the request
is proceeded or ignored", and the `loading` field "Indicates whether the
loader is currently loading an asset": a call while loading is ignored and
returns false; otherwise the request proceeds, `loading` becomes true and
the callback (modelled by an identifier) is registered for the download. -/
def loadGLTF (s : RemoteLoaderState) (_url : String) (_name : String) (cb : Nat) :
    Bool × RemoteLoaderState :=
  if s.loading then (false, s)
  else (true, { s with loading := true, pending := some cb })

/-- Modelled from the spec: the implementation of
`RemoteLoader.loadRodinAsset` is not under src/ (src/api.d.ts:96 declares
only the signature).  Same accept/ignore behaviour as `loadGLTF`. -/
def loadRodinAsset (s : RemoteLoaderState) (_asset : RodinAsset) (cb : Nat) :
    Bool × RemoteLoaderState :=
  if s.loading then (false, s)
  else (true, { s with loading := true, pending := some cb })

/-- Modelled from the spec: the implementation of
`RemoteLoader.switchMaterial` is not under src/ (src/api.d.ts:111 declares
only the signature).  It switches the loaded model to the named material
(pbr, toon, shaded or blank). -/
def switchMaterial (s : RemoteLoaderState) (name : String) : RemoteLoaderState :=
  { s with current := name }

/-- Modelled from the spec: the implementation of
`RemoteLoader.setLineWidth` is not under src/ (src/api.d.ts:121 declares
only the signature).  Per its doc comment it sets the line width of the
toon material and "only works when the current material is toon". -/
def setLineWidth (s : RemoteLoaderState) (width : ℚ) : RemoteLoaderState :=
  if s.current = "toon" then { s with toonLineWidth := width } else s

/-- Modelled from the spec: the asynchronous download machinery behind
`RemoteLoader` is not under src/.  When a download completes, the
registered callback is invoked (its identifier is emitted) and the loader
returns to the idle state. -/
def completeDownload (s : RemoteLoaderState) : RemoteLoaderState × List Nat :=
  match s.pending with
  | some c => ({ s with loading := false, pending := none }, [c])
  | none => (s, [])

/-- Events driving the loader: a `loadRodinAsset` call, a `loadGLTF` call,
or the completion of the asynchronous asset download. -/
inductive LoadEvent where
  | load (asset : RodinAsset) (cb : Nat)
  | loadG (url : String) (name : String) (cb : Nat)
  | complete
deriving DecidableEq

/-- The callback identifier supplied by a load request event, if any. -/
def cbOf : LoadEvent → Option Nat
  | .load _ c => some c
  | .loadG _ _ c => some c
  | .complete => none

/-- Modelled from the spec: one step of the loader; load calls use the
modelled operations, completion invokes the pending callback.  The second
component lists the callback identifiers invoked by the step. -/
def step (s : RemoteLoaderState) : LoadEvent → RemoteLoaderState × List Nat
  | .load a c => ((loadRodinAsset s a c).2, [])
  | .loadG u n c => ((loadGLTF s u n c).2, [])
  | .complete => completeDownload s

/-- Modelled from the spec: run the loader over a list of events,
collecting every callback invocation in order. -/
def run (s : RemoteLoaderState) : List LoadEvent → RemoteLoaderState × List Nat
  | [] => (s, [])
  | e :: es =>
    let p := step s e
    let q := run p.1 es
    (q.1, p.2 ++ q.2)

/-- State of the `Settings` component, src/api.d.ts lines 176-310 and
511-579: the light direction exposed by the `lightDirection` getter, the
background color, and the three post-process toggles. -/
structure SettingsState where
  lightDirection : Vec3
  backColor : Color
  bloomEnabled : Bool
  aoEnabled : Bool
  vignetteEnabled : Bool
deriving DecidableEq

/-- Modelled from the spec: the implementation of
`Settings.setLightDirection` is not under src/ (src/api.d.ts:279 declares
only the signature).  Per its doc comment the angles of the directional
light are set from the argument with "y: FIXED at 90, cannot be over
written". -/
def setLightDirection (s : SettingsState) (eulerAngles : Vec3) : SettingsState :=
  { s with lightDirection := ⟨eulerAngles.x, 90, eulerAngles.z⟩ }

/-- Rational stand-in for the real number pi used by the degree-to-radian
conversion of the modelled controller. -/
def PI_Q : ℚ := 3141592653589793 / 1000000000000000

/-- Degree-to-radian conversion of the modelled controller
(`minPolar`/`maxPolar` are declared in degrees, `polar` in radians). -/
def degToRad (d : ℚ) : ℚ := d * (PI_Q / 180)

/-- Clamp `x` into the interval from `lo` to `hi`. -/
def clamp (lo hi x : ℚ) : ℚ := max lo (min x hi)

/-- State of the `RodinController` component, src/api.d.ts lines 329-394.
All declared public fields and the two private backing fields `_minPolar`
and `_maxPolar` (in degrees) are embedded; `azimuth`, `polar` (radians)
and `radius` back the declared accessor pairs.  The target node is
modelled by an optional identifier. -/
structure RodinControllerState where
  damping : ℚ
  zoomSpeed : ℚ
  mouse_constant : ℚ
  target : Option Nat
  maxRadius : ℚ
  minRadius : ℚ
  _minPolar : ℚ
  _maxPolar : ℚ
  maxAzimuth : ℚ
  minAzimuth : ℚ
  azimuth : ℚ
  polar : ℚ
  radius : ℚ
deriving DecidableEq

/-- Modelled from the spec: the `azimuth` setter of `RodinController` is
not under src/ (src/api.d.ts:370 declares only the signature); the value
is clamped between `minAzimuth` and `maxAzimuth`. -/
def setAzimuth (s : RodinControllerState) (value : ℚ) : RodinControllerState :=
  { s with azimuth := clamp s.minAzimuth s.maxAzimuth value }

/-- Modelled from the spec: the `polar` setter of `RodinController` is not
under src/ (src/api.d.ts:375 declares only the signature); spec.md names
clamping as part of the orbit-camera math, and `minPolar`/`maxPolar` are
declared in degrees while `polar` is in radians, so the value is clamped
between the radian equivalents of the degree bounds. -/
def setPolar (s : RodinControllerState) (e : ℚ) : RodinControllerState :=
  { s with polar := clamp (degToRad s._minPolar) (degToRad s._maxPolar) e }

/-- Modelled from the spec: the `radius` setter of `RodinController` is
not under src/ (src/api.d.ts:380 declares only the signature); the value
is clamped between `minRadius` and `maxRadius`. -/
def setRadius (s : RodinControllerState) (value : ℚ) : RodinControllerState :=
  { s with radius := clamp s.minRadius s.maxRadius value }

/-- Mouse move event carrying the deltas relevant to the controller. -/
structure MouseEvent where
  movementX : ℚ
  movementY : ℚ
deriving DecidableEq

/-- Modelled from the spec: the implementation of
`RodinController.windowMouseMove` is not under src/ (src/api.d.ts:388
declares only the signature).  Per spec.md the controller performs
"numeric mapping from mouse/touch deltas to spherical-camera coordinates":
the deltas scaled by `mouse_constant` move the azimuthal and polar angles
through their (clamping) setters. -/
def windowMouseMove (s : RodinControllerState) (e : MouseEvent) : RodinControllerState :=
  let s1 := setAzimuth s (s.azimuth - e.movementX * s.mouse_constant)
  setPolar s1 (s1.polar - e.movementY * s.mouse_constant)

/-- Kind of an exported declaration in src/api.d.ts. -/
inductive DeclKind where
  | classDecl
  | interfaceDecl
deriving DecidableEq, BEq

/-- An exported declaration of src/api.d.ts: its name, kind, and the base
named by its extends clause, if any. -/
structure Decl where
  name : String
  kind : DeclKind
  base : Option String
deriving DecidableEq

/-- Every exported declaration of src/api.d.ts in file order.  The file
contains two concatenated declaration copies; the first `Settings` class
(line 176) declares no extends clause, the second (line 511) extends
`Component`. -/
def apiDecls : List Decl :=
  [ ⟨"RodinMaterialProperties", .interfaceDecl, none⟩,
    ⟨"RodinMaterial", .interfaceDecl, none⟩,
    ⟨"RodinAsset", .interfaceDecl, none⟩,
    ⟨"RemoteLoader", .classDecl, some "Component"⟩,
    ⟨"IBloom", .interfaceDecl, some "Component"⟩,
    ⟨"IAmbientOcclusion", .interfaceDecl, some "Component"⟩,
    ⟨"Settings", .classDecl, none⟩,
    ⟨"SettingsMenu", .classDecl, some "Component"⟩,
    ⟨"RodinController", .classDecl, some "Component"⟩,
    ⟨"RodinMaterialProperties", .interfaceDecl, none⟩,
    ⟨"RodinMaterial", .interfaceDecl, none⟩,
    ⟨"RodinAsset", .interfaceDecl, none⟩,
    ⟨"RemoteLoader", .classDecl, some "Component"⟩,
    ⟨"Settings", .classDecl, some "Component"⟩,
    ⟨"RodinController", .classDecl, some "Component"⟩ ]

/-- Clamping lands in the interval when the bounds are ordered. -/
theorem clamp_mem (lo hi x : ℚ) (h : lo ≤ hi) :
    lo ≤ clamp lo hi x ∧ clamp lo hi x ≤ hi :=
  ⟨le_max_left _ _, max_le h (min_le_right _ _)⟩

/-- Degree-to-radian conversion is monotone. -/
theorem degToRad_mono {a b : ℚ} (h : a ≤ b) : degToRad a ≤ degToRad b := by
  have hk : (0 : ℚ) ≤ PI_Q / 180 := by norm_num [PI_Q]
  exact mul_le_mul_of_nonneg_right h hk

/-- Sample controller state used by the concrete witnesses. -/
def sampleController : RodinControllerState where
  damping := 10
  zoomSpeed := 1
  mouse_constant := 1 / 100
  target := some 0
  maxRadius := 5
  minRadius := 1
  _minPolar := 10
  _maxPolar := 170
  maxAzimuth := 100
  minAzimuth := -100
  azimuth := 0
  polar := 1
  radius := 2

/-- C1: after every value passed to the `polar` and `radius` setters, and
after every input-driven update through `windowMouseMove`, the polar angle
lies between the radian equivalents of `minPolar` and `maxPolar` and the
radius lies between `minRadius` and `maxRadius` (given ordered bounds). -/
theorem c1_clamping_invariant (s : RodinControllerState) (v w : ℚ) (e : MouseEvent)
    (hp : s._minPolar ≤ s._maxPolar) (hr : s.minRadius ≤ s.maxRadius) :
    (degToRad s._minPolar ≤ (setPolar s v).polar ∧
      (setPolar s v).polar ≤ degToRad s._maxPolar) ∧
    (s.minRadius ≤ (setRadius s w).radius ∧
      (setRadius s w).radius ≤ s.maxRadius) ∧
    (degToRad s._minPolar ≤ (windowMouseMove s e).polar ∧
      (windowMouseMove s e).polar ≤ degToRad s._maxPolar) :=
  ⟨clamp_mem _ _ _ (degToRad_mono hp), clamp_mem _ _ _ hr,
    clamp_mem _ _ _ (degToRad_mono hp)⟩

/-- C1 witness: the invariant at a concrete controller state, setter values
and mouse event. -/
theorem c1_witness :
    sampleController._minPolar ≤ sampleController._maxPolar ∧
    sampleController.minRadius ≤ sampleController.maxRadius ∧
    ((degToRad sampleController._minPolar ≤ (setPolar sampleController 100).polar ∧
       (setPolar sampleController 100).polar ≤ degToRad sampleController._maxPolar) ∧
     (sampleController.minRadius ≤ (setRadius sampleController 7).radius ∧
       (setRadius sampleController 7).radius ≤ sampleController.maxRadius) ∧
     (degToRad sampleController._minPolar ≤ (windowMouseMove sampleController ⟨2, 5⟩).polar ∧
       (windowMouseMove sampleController ⟨2, 5⟩).polar ≤ degToRad sampleController._maxPolar)) :=
  ⟨by decide, by decide,
    c1_clamping_invariant sampleController 100 7 ⟨2, 5⟩ (by decide) (by decide)⟩

/-- C2: a call to `loadGLTF` or `loadRodinAsset` while `loading` is true is
ignored: it returns false and leaves the loader state unchanged; a call
while `loading` is false proceeds: it returns true and `loading` becomes
true. -/
theorem c2_load_accept_or_ignore (s : RemoteLoaderState) (url name : String)
    (cb : Nat) (a : RodinAsset) (cb2 : Nat) :
    (s.loading = true →
      loadGLTF s url name cb = (false, s) ∧ loadRodinAsset s a cb2 = (false, s)) ∧
    (s.loading = false →
      (loadGLTF s url name cb).1 = true ∧ (loadGLTF s url name cb).2.loading = true ∧
      (loadRodinAsset s a cb2).1 = true ∧ (loadRodinAsset s a cb2).2.loading = true) := by
  constructor <;> intro h <;> simp [loadGLTF, loadRodinAsset, h]

/-- Sample idle loader state used by the concrete witnesses. -/
def sampleLoader : RemoteLoaderState where
  materials := ["pbr", "toon", "shaded", "blank"]
  blankColor := ⟨255, 255, 255, 255⟩
  wireColor := ⟨0, 0, 0, 255⟩
  wireDepthBias := 1 / 1000
  host := "h"
  loading := false
  pending := none
  current := "pbr"
  toonLineWidth := 1
  wireFrameEnabled := false

/-- Sample asset used by the concrete witnesses. -/
def sampleAsset : RodinAsset where
  name := "m"
  host := "h"
  url := "u"
  materials := []

/-- C2 witness: the accept branch at the concrete idle loader. -/
theorem c2_witness :
    sampleLoader.loading = false ∧
    ((loadGLTF sampleLoader "u" "m" 1).1 = true ∧
      (loadGLTF sampleLoader "u" "m" 1).2.loading = true ∧
      (loadRodinAsset sampleLoader sampleAsset 2).1 = true ∧
      (loadRodinAsset sampleLoader sampleAsset 2).2.loading = true) :=
  ⟨by decide, (c2_load_accept_or_ignore sampleLoader "u" "m" 1 sampleAsset 2).2 (by decide)⟩

/-- C3: after `setLightDirection eulerAngles` the light direction's y
component equals 90 regardless of the argument, while the x and z
components come from the argument. -/
theorem c3_light_y_fixed (s : SettingsState) (eulerAngles : Vec3) :
    (setLightDirection s eulerAngles).lightDirection.y = 90 ∧
    (setLightDirection s eulerAngles).lightDirection.x = eulerAngles.x ∧
    (setLightDirection s eulerAngles).lightDirection.z = eulerAngles.z :=
  ⟨rfl, rfl, rfl⟩

/-- C4: `windowMouseMove` changes only the azimuth and polar angles; the
damping, zoom speed, mouse constant, target, radius and every bound field
of the controller are unchanged. -/
theorem c4_windowMouseMove_frame (s : RodinControllerState) (e : MouseEvent) :
    (windowMouseMove s e).damping = s.damping ∧
    (windowMouseMove s e).zoomSpeed = s.zoomSpeed ∧
    (windowMouseMove s e).mouse_constant = s.mouse_constant ∧
    (windowMouseMove s e).target = s.target ∧
    (windowMouseMove s e).maxRadius = s.maxRadius ∧
    (windowMouseMove s e).minRadius = s.minRadius ∧
    (windowMouseMove s e)._minPolar = s._minPolar ∧
    (windowMouseMove s e)._maxPolar = s._maxPolar ∧
    (windowMouseMove s e).maxAzimuth = s.maxAzimuth ∧
    (windowMouseMove s e).minAzimuth = s.minAzimuth ∧
    (windowMouseMove s e).radius = s.radius :=
  ⟨rfl, rfl, rfl, rfl, rfl, rfl, rfl, rfl, rfl, rfl, rfl⟩

/-- C6: `setLineWidth` is a no-op unless the currently switched material is
toon; when it is toon, only the toon line width changes. -/
theorem c6_setLineWidth_only_toon (s : RemoteLoaderState) (w : ℚ) :
    (s.current ≠ "toon" → setLineWidth s w = s) ∧
    (s.current = "toon" → setLineWidth s w = { s with toonLineWidth := w }) := by
  constructor <;> intro h <;> simp [setLineWidth, h]

/-- C6 witness: the no-op branch after switching to pbr and the update
branch after switching to toon, at the concrete loader. -/
theorem c6_witness :
    ((switchMaterial sampleLoader "pbr").current ≠ "toon" →
      setLineWidth (switchMaterial sampleLoader "pbr") 3 = switchMaterial sampleLoader "pbr") ∧
    ((switchMaterial sampleLoader "toon").current = "toon" →
      setLineWidth (switchMaterial sampleLoader "toon") 3 =
        { switchMaterial sampleLoader "toon" with toonLineWidth := 3 }) :=
  ⟨(c6_setLineWidth_only_toon (switchMaterial sampleLoader "pbr") 3).1,
    (c6_setLineWidth_only_toon (switchMaterial sampleLoader "toon") 3).2⟩

/-- Helper: unfolding `run` over a cons. -/
theorem run_cons (s : RemoteLoaderState) (e : LoadEvent) (es : List LoadEvent) :
    run s (e :: es) =
      ((run (step s e).1 es).1, (step s e).2 ++ (run (step s e).1 es).2) := rfl

/-- Helper: a callback that is not pending and is requested by no event of
the trace is never invoked. -/
theorem run_count_zero (c : Nat) (es : List LoadEvent) :
    ∀ s : RemoteLoaderState, s.pending ≠ some c →
      (∀ e₁ ∈ es, cbOf e₁ ≠ some c) →
      (run s es).2.count c = 0 := by
  induction es with
  | nil =>
    intro s _ _
    simp [run]
  | cons e es ih =>
    intro s hp hf
    have hft : ∀ e₁ ∈ es, cbOf e₁ ≠ some c :=
      fun e₁ h₁ => hf e₁ (List.mem_cons_of_mem _ h₁)
    rw [run_cons, List.count_append]
    cases e with
    | load a d =>
      have hd : d ≠ c := fun hdc =>
        hf _ (List.mem_cons_self _ _) (by simp [cbOf, hdc])
      by_cases hl : s.loading = true
      · simp only [step, loadRodinAsset, hl, if_true]
        simp [ih s hp hft]
      · simp only [step, loadRodinAsset, hl, if_false]
        have hp2 : ({ s with loading := true, pending := some d } :
            RemoteLoaderState).pending ≠ some c := by simp [hd]
        simp [ih _ hp2 hft]
    | loadG u n d =>
      have hd : d ≠ c := fun hdc =>
        hf _ (List.mem_cons_self _ _) (by simp [cbOf, hdc])
      by_cases hl : s.loading = true
      · simp only [step, loadGLTF, hl, if_true]
        simp [ih s hp hft]
      · simp only [step, loadGLTF, hl, if_false]
        have hp2 : ({ s with loading := true, pending := some d } :
            RemoteLoaderState).pending ≠ some c := by simp [hd]
        simp [ih _ hp2 hft]
    | complete =>
      cases hsp : s.pending with
      | some d =>
        have hd : d ≠ c := fun hdc => hp (by rw [hsp, hdc])
        simp only [step, completeDownload, hsp]
        have hp2 : ({ s with loading := false, pending := none } :
            RemoteLoaderState).pending ≠ some c := by simp
        simp [List.count_cons, hd, ih _ hp2 hft]
      | none =>
        simp only [step, completeDownload, hsp]
        simp [ih s hp hft]

/-- Helper: while a download with callback `c` is pending, further load
requests are ignored and the first completion invokes `c`; `c` fires
exactly once over any trace containing a completion. -/
theorem run_count_one (c : Nat) (es : List LoadEvent) :
    ∀ s : RemoteLoaderState, s.loading = true → s.pending = some c →
      (∀ e₁ ∈ es, cbOf e₁ ≠ some c) →
      LoadEvent.complete ∈ es →
      (run s es).2.count c = 1 := by
  induction es with
  | nil =>
    intro s _ _ _ hdone
    simp at hdone
  | cons e es ih =>
    intro s hl hp hf hdone
    have hft : ∀ e₁ ∈ es, cbOf e₁ ≠ some c :=
      fun e₁ h₁ => hf e₁ (List.mem_cons_of_mem _ h₁)
    rw [run_cons, List.count_append]
    cases e with
    | load a d =>
      have hdone2 : LoadEvent.complete ∈ es := by
        rcases List.mem_cons.mp hdone with h | h
        · simp at h
        · exact h
      simp only [step, loadRodinAsset, hl, if_true]
      simp [ih s hl hp hft hdone2]
    | loadG u n d =>
      have hdone2 : LoadEvent.complete ∈ es := by
        rcases List.mem_cons.mp hdone with h | h
        · simp at h
        · exact h
      simp only [step, loadGLTF, hl, if_true]
      simp [ih s hl hp hft hdone2]
    | complete =>
      simp only [step, completeDownload, hp]
      have hp2 : ({ s with loading := false, pending := none } :
          RemoteLoaderState).pending ≠ some c := by simp
      simp [List.count_cons, run_count_zero c es _ hp2 hft]

/-- C5: a load request accepted by `loadRodinAsset` or `loadGLTF` (the
call returns true) has its callback invoked exactly once, when the
asynchronous download completes: from a non-loading state, over any
following event trace that contains the download completion and supplies
no load request with the same callback identifier, the callback fires
exactly once. -/
theorem c5_callback_exactly_once (s : RemoteLoaderState) (a : RodinAsset)
    (u n : String) (c : Nat) (es : List LoadEvent)
    (h0 : s.loading = false)
    (hfresh : ∀ e₁ ∈ es, cbOf e₁ ≠ some c)
    (hdone : LoadEvent.complete ∈ es) :
    (loadRodinAsset s a c).1 = true ∧
    (loadGLTF s u n c).1 = true ∧
    (run s (LoadEvent.load a c :: es)).2.count c = 1 ∧
    (run s (LoadEvent.loadG u n c :: es)).2.count c = 1 := by
  have hstate : (loadRodinAsset s a c).2 =
      { s with loading := true, pending := some c } := by
    simp [loadRodinAsset, h0]
  have hstate2 : (loadGLTF s u n c).2 =
      { s with loading := true, pending := some c } := by
    simp [loadGLTF, h0]
  refine ⟨by simp [loadRodinAsset, h0], by simp [loadGLTF, h0], ?_, ?_⟩
  · rw [run_cons, List.count_append]
    simp only [step, hstate]
    simp [run_count_one c es { s with loading := true, pending := some c } rfl rfl
      hfresh hdone]
  · rw [run_cons, List.count_append]
    simp only [step, hstate2]
    simp [run_count_one c es { s with loading := true, pending := some c } rfl rfl
      hfresh hdone]

/-- C5 witness: a concrete accepted request whose download completes in
the next event; the callback fires exactly once. -/
theorem c5_witness :
    (loadRodinAsset sampleLoader sampleAsset 7).1 = true ∧
    (loadGLTF sampleLoader "u" "m" 7).1 = true ∧
    (run sampleLoader (LoadEvent.load sampleAsset 7 :: [LoadEvent.complete])).2.count 7 = 1 ∧
    (run sampleLoader (LoadEvent.loadG "u" "m" 7 :: [LoadEvent.complete])).2.count 7 = 1 :=
  c5_callback_exactly_once sampleLoader sampleAsset "u" "m" 7 [LoadEvent.complete]
    (by decide) (by decide) (by decide)

/-- C7 counterexample: not every class declared in src/api.d.ts extends
`Component`; the first `Settings` declaration (src/api.d.ts:176) has no
base class. -/
theorem c7_counterexample :
    ¬ (∀ d ∈ apiDecls, d.kind = DeclKind.classDecl → d.base = some "Component") := by
  decide

/-- C7 (amended): every class declaration of src/api.d.ts subclasses
`Component` except the one at position 6, the first `Settings`
declaration (src/api.d.ts:176), which declares no base class; the
declaration at position 6 is indeed the class `Settings` with no extends
clause, and the second `Settings` declaration, at position 13
(src/api.d.ts:511), does extend `Component`. -/
theorem c7_classes_extend_Component :
    (∀ p ∈ apiDecls.enum, p.2.kind = DeclKind.classDecl →
        p.2.base = some "Component" ∨ p.1 = 6) ∧
    apiDecls[6]? = some ⟨"Settings", DeclKind.classDecl, none⟩ ∧
    apiDecls[13]? = some ⟨"Settings", DeclKind.classDecl, some "Component"⟩ := by
  decide

/-- C7 witness: the amended theorem applied to the first `RemoteLoader`
class declaration, at position 3 of the exported declaration list. -/
theorem c7_witness :
    (3, Decl.mk "RemoteLoader" DeclKind.classDecl (some "Component")).2.base =
      some "Component" ∨
    (3, Decl.mk "RemoteLoader" DeclKind.classDecl (some "Component")).1 = 6 :=
  c7_classes_extend_Component.1
    (3, Decl.mk "RemoteLoader" DeclKind.classDecl (some "Component")) (by decide) (by decide)

/-- C8: the classes exported by src/api.d.ts are exactly the four
game-engine components `RemoteLoader`, `Settings`, `SettingsMenu` and
`RodinController`; the remaining exports are the data-model and
post-process interfaces, which are not component classes. -/
theorem c8_component_surface :
    ((apiDecls.filter (fun d => d.kind == DeclKind.classDecl)).map Decl.name).toFinset =
      ({"RemoteLoader", "Settings", "SettingsMenu", "RodinController"} : Finset String) := by
  decide
